import Mathlib

/-!
Verification of the data-ingestion and metric-derivation core of the
energy-audit dashboard (`energy_audit_streamlit_app.py`).

The embedding models the two core functions of the source file:

* `load_station_data` (source lines 102-141): maps a station to a fixed
  backing file, reads it, scans an ordered candidate list of timestamp
  column names, parses the selected column as timestamps, re-keys the
  table by the parsed column, and reports each failure condition via a
  distinct `st.error` message followed by a `None` return.  The pair
  (displayed error condition, `None` return) is modelled as
  `Except LoadError DataFrame`; `Except.toOption` recovers the raw
  Python return value.

* `calculate_daily_averages` (source lines 143-168): returns a dict of
  per-column means (the pandas `df.get(col, Series()).mean()` idiom,
  which skips missing cells — NaN only — and yields NaN, the undefined
  marker, for an absent column or a column with no value left),
  `len(df)` as `data_points`, dividing the power mean by 1000 after
  aggregation and only when it is defined.  `Series.mean()` does NOT
  skip a non-numeric, non-missing cell: such a cell makes the column
  object dtype and the mean raise `TypeError`, which the `except`
  branch of lines 166-168 turns into an empty-dict return; the model
  reproduces this with the `kpiColsClean` guard.  The dict is modelled
  as a structure of `Option` fields; the empty dict returned for
  `None`/empty/raising input is `emptyKPIs` (all fields `none`).

Tables are lists of association-list rows plus a column-name list; a
cell is a rational number, a timestamp, an unparseable value, or a
missing value (pandas NaN).
-/

/-- A cell of a measurement table: a numeric value, a timestamp value,
a value that cannot be parsed as a timestamp (e.g. a malformed string),
or a missing entry (pandas NaN). -/
inductive Cell where
  | num (q : ℚ)
  | time (t : ℚ)
  | bad
  | missing
deriving DecidableEq, Repr

/-- A tabular frame: the list of column names and the rows, each row an
association list from column name to cell.  A cell absent from a row's
association list is read as `Cell.missing` (pandas stores NaN there). -/
structure DataFrame where
  cols : List String
  rows : List (List (String × Cell))
deriving DecidableEq, Repr

/-- The numeric content of a cell.  Only feeds the mean through columns
that pass `cellMeanSafe` on every cell, where the `none` cells are
exactly the missing ones pandas `mean` skips; a non-numeric,
non-missing cell never reaches a computed mean (it trips the
`kpiColsClean` guard instead). -/
def cellNum : Cell → Option ℚ
  | Cell.num q => some q
  | _ => none

/-- The values of column `c`, one per row, as pandas
`df.get(c, Series())` sees them: the per-row entries (missing where a
row has no entry) when the column is present, the empty series when it
is absent. -/
def colValues (df : DataFrame) (c : String) : List Cell :=
  if df.cols.contains c then
    df.rows.map (fun r => (r.lookup c).getD Cell.missing)
  else []

/-- The numeric, non-missing values of column `c`. -/
def numericValues (df : DataFrame) (c : String) : List ℚ :=
  (colValues df c).filterMap cellNum

/-- pandas `Series.mean()` with the default `skipna=True`, restricted to
the numeric values: `none` (NaN) when no value remains, otherwise the
arithmetic mean. -/
def seriesMean (l : List ℚ) : Option ℚ :=
  if l.isEmpty then none else some (l.sum / l.length)

/-- `df.get(c, Series()).mean()` on a column of numeric and missing
cells: the mean of the numeric values with the missing ones skipped,
undefined when the column is absent or holds no numeric value.  (This
is also the mean the spec asserts for every column; the counterexamples
below compare it against what the code actually returns on a column
holding a non-numeric, non-missing cell.) -/
def colMean (df : DataFrame) (c : String) : Option ℚ :=
  seriesMean (numericValues df c)

/-- Whether pandas `Series.mean()` accepts a cell: numeric cells are
averaged and missing cells (NaN) are skipped; any other value — a
string, or a timestamp sitting in a measurement-named column — is not
skipped and makes the aggregation raise (`TypeError` from summing the
object-dtype column, or, for a column of timestamps in
`PowerP_Total_avg`, from dividing the resulting `Timestamp` by 1000). -/
def cellMeanSafe : Cell → Bool
  | Cell.num _ => true
  | Cell.missing => true
  | _ => false

/-- Whether `df.get(c, Series()).mean()` computes without raising:
every cell of the column is numeric or missing. -/
def meanSafe (df : DataFrame) (c : String) : Bool :=
  (colValues df c).all cellMeanSafe

/-- The seven KPI source columns of the dict of source lines 150-157. -/
def kpi_source_cols : List String :=
  ["PowerP_Total_avg", "PfFwdRev_Total_avg", "Vrms_AN_avg", "Irms_A_avg",
   "Frequency_avg", "Vthd_AN_avg", "Ithd_A_avg"]

/-- Whether every KPI source column averages without raising.  When this
fails, some `mean()` call inside the dict literal raises and the
`except` branch of source lines 166-168 returns the empty dict. -/
def kpiColsClean (df : DataFrame) : Bool :=
  kpi_source_cols.all (fun c => meanSafe df c)

/-- The KPI dict built by `calculate_daily_averages` (source lines
150-159).  Each field is `none` when the corresponding dict entry is
absent or NaN. -/
structure KPIs where
  avg_power : Option ℚ
  avg_pf : Option ℚ
  avg_voltage : Option ℚ
  avg_current : Option ℚ
  avg_frequency : Option ℚ
  avg_vthd : Option ℚ
  avg_ithd : Option ℚ
  data_points : Option ℕ
deriving DecidableEq, Repr

/-- The empty dict `{}` returned on `None` or empty input: every key,
`data_points` included, is absent. -/
def emptyKPIs : KPIs :=
  { avg_power := none, avg_pf := none, avg_voltage := none
    avg_current := none, avg_frequency := none, avg_vthd := none
    avg_ithd := none, data_points := none }

/-- `calculate_daily_averages` (source lines 143-168).  `None` input or
an empty frame (`df.empty`: either axis of length 0) returns the empty
dict; a non-numeric, non-missing cell in any of the seven KPI source
columns makes a `mean()` (or the W→kW division) raise, and the `except`
branch of lines 166-168 returns the empty dict as well; otherwise each
indicator is the mean of its source column, the power mean is divided
by 1000 after aggregation when it is defined (the `pd.isna` guard of
lines 162-163), and `data_points` is `len(df)`. -/
def calculate_daily_averages : Option DataFrame → KPIs
  | none => emptyKPIs
  | some df =>
    if df.rows.isEmpty || df.cols.isEmpty then emptyKPIs
    else if kpiColsClean df then
      { avg_power := (colMean df "PowerP_Total_avg").map (fun w => w / 1000)
        avg_pf := colMean df "PfFwdRev_Total_avg"
        avg_voltage := colMean df "Vrms_AN_avg"
        avg_current := colMean df "Irms_A_avg"
        avg_frequency := colMean df "Frequency_avg"
        avg_vthd := colMean df "Vthd_AN_avg"
        avg_ithd := colMean df "Ithd_A_avg"
        data_points := some df.rows.length }
    else emptyKPIs

/-- The two stations of the dashboard. -/
inductive Station where
  | mvule
  | clinic
deriving DecidableEq, Repr

/-- The fixed station-to-file mapping of source lines 106-109 (`mvule`
gets its own workbook, anything else falls to the clinic workbook). -/
def stationFile : Station → String
  | Station.mvule => "MVULE corrected time.xlsx"
  | Station.clinic => "Clinic corrected time.xlsx"

/-- The state of a backing file: absent (`Path.exists` false), present
but failing `pd.read_excel`, or readable as a parsed frame. -/
inductive FileState where
  | absent
  | unreadable
  | readable (df : DataFrame)

/-- The distinct failure conditions of `load_station_data`, each the
`st.error` report issued just before the `None` return: the missing
backing file (line 137), the missing timestamp column (line 134), a
timestamp value the `pd.to_datetime` call of line 130 cannot parse, and
a failing `pd.read_excel` (both of the latter surface through the
`except` branch of lines 139-141). -/
inductive LoadError where
  | sourceNotFound
  | schemaErrorNoTimeCol
  | schemaErrorBadTimestamp
  | readFailure
deriving DecidableEq, Repr

/-- The ordered candidate list of timestamp column names
(source lines 115-121). -/
def time_columns : List String :=
  ["Stop(E. Africa Standard Time)",
   "Start/Stop(E. Africa Standard Time)",
   "Time",
   "DateTime",
   "Timestamp"]

/-- The scan of source lines 123-127: the first candidate name present
among the frame's columns. -/
def findTimeCol (cols : List String) : Option String :=
  time_columns.find? (fun c => cols.contains c)

/-- `pd.to_datetime` on one cell: timestamps and numbers parse, a
missing value parses (to NaT), an unparseable value raises. -/
def parseTime : Cell → Option ℚ
  | Cell.num q => some q
  | Cell.time t => some t
  | Cell.bad => none
  | Cell.missing => some 0

/-- `pd.to_datetime` over the whole selected column: all-or-nothing,
one unparseable value fails the column. -/
def parseSeries : List Cell → Option (List ℚ)
  | [] => some []
  | c :: cs =>
    match parseTime c, parseSeries cs with
    | some t, some ts => some (t :: ts)
    | _, _ => none

/-- `load_station_data` (source lines 102-141) over an abstract file
system `fs`.  Failure branches are the distinct error reports, each of
which the Python function follows with `return None`; success re-keys
the frame by the selected timestamp column (`set_index`, line 131),
which removes that column from the value columns and keeps every row. -/
def load_station_data (fs : String → FileState) (station : Station) :
    Except LoadError DataFrame :=
  match fs (stationFile station) with
  | FileState.absent => Except.error LoadError.sourceNotFound
  | FileState.unreadable => Except.error LoadError.readFailure
  | FileState.readable df =>
    match findTimeCol df.cols with
    | none => Except.error LoadError.schemaErrorNoTimeCol
    | some tc =>
      match parseSeries (colValues df tc) with
      | none => Except.error LoadError.schemaErrorBadTimestamp
      | some _ => Except.ok { cols := df.cols.erase tc, rows := df.rows }

/-- The raw Python return value of `load_station_data`: the loaded frame
or `None`. -/
def load_station_result (fs : String → FileState) (station : Station) :
    Option DataFrame :=
  (load_station_data fs station).toOption

/-! ### Concrete tables used as witnesses and counterexamples -/

/-- A one-row table whose only column is the power column, value 2000 W. -/
def df1 : DataFrame :=
  { cols := ["PowerP_Total_avg"],
    rows := [[("PowerP_Total_avg", Cell.num 2000)]] }

/-- A two-row power table with values 1000 W and 3000 W. -/
def df2 : DataFrame :=
  { cols := ["PowerP_Total_avg"],
    rows := [[("PowerP_Total_avg", Cell.num 1000)],
             [("PowerP_Total_avg", Cell.num 3000)]] }

/-- A table with a power column but no rows. -/
def dfEmpty : DataFrame := { cols := ["PowerP_Total_avg"], rows := [] }

/-- A table lacking the power column, with one power-factor row. -/
def dfNoPower : DataFrame :=
  { cols := ["PfFwdRev_Total_avg"],
    rows := [[("PfFwdRev_Total_avg", Cell.num (9 / 10))]] }

/-- A voltage table with values 220 V, 240 V and one missing cell. -/
def dfV : DataFrame :=
  { cols := ["Vrms_AN_avg"],
    rows := [[("Vrms_AN_avg", Cell.num 220)],
             [("Vrms_AN_avg", Cell.num 240)],
             [("Vrms_AN_avg", Cell.missing)]] }

/-- A power table whose second row holds a non-numeric string cell: the
column's `mean()` raises and the whole KPI dict comes back empty. -/
def dfPowerDirty : DataFrame :=
  { cols := ["PowerP_Total_avg"],
    rows := [[("PowerP_Total_avg", Cell.num 1000)],
             [("PowerP_Total_avg", Cell.bad)]] }

/-- A table lacking the power column whose power-factor column holds a
numeric cell and a non-numeric string cell. -/
def dfNoPowerDirty : DataFrame :=
  { cols := ["PfFwdRev_Total_avg"],
    rows := [[("PfFwdRev_Total_avg", Cell.num 1)],
             [("PfFwdRev_Total_avg", Cell.bad)]] }

/-- A voltage table holding a numeric cell and a non-numeric string
cell. -/
def dfVDirty : DataFrame :=
  { cols := ["Vrms_AN_avg"],
    rows := [[("Vrms_AN_avg", Cell.num 220)],
             [("Vrms_AN_avg", Cell.bad)]] }

/-- A table none of whose columns is a timestamp candidate. -/
def dfNoTime : DataFrame := { cols := ["Foo"], rows := [] }

/-- A table whose `Time` column holds an unparseable value. -/
def dfBad : DataFrame :=
  { cols := ["Time", "PowerP_Total_avg"],
    rows := [[("Time", Cell.bad), ("PowerP_Total_avg", Cell.num 5)]] }

/-- A table carrying both the `Time` and the
`Stop(E. Africa Standard Time)` candidate columns, `Time` listed first. -/
def dfBoth : DataFrame :=
  { cols := ["Time", "Stop(E. Africa Standard Time)"], rows := [] }

/-- A file system with no files at all. -/
def fsAbsent : String → FileState := fun _ => FileState.absent

/-- A file system serving `dfNoTime` for every path. -/
def fsNoTime : String → FileState := fun _ => FileState.readable dfNoTime

/-- A file system serving `dfBad` for every path. -/
def fsBad : String → FileState := fun _ => FileState.readable dfBad

/-- A file system serving `dfBoth` for every path. -/
def fsBoth : String → FileState := fun _ => FileState.readable dfBoth

/-! ### Helper lemmas -/

/-- A column absent from the column list has an undefined mean. -/
theorem colMean_of_not_mem (df : DataFrame) (c : String) (h : c ∉ df.cols) :
    colMean df c = none := by
  simp [colMean, numericValues, colValues, seriesMean, h]

/-- Every column of a rowless table has an undefined mean. -/
theorem colMean_of_rows_nil (df : DataFrame) (c : String) (h : df.rows = []) :
    colMean df c = none := by
  simp [colMean, numericValues, colValues, seriesMean, h]

/-- On an empty frame (either axis of length 0) every column mean is
undefined. -/
theorem colMean_of_empty (df : DataFrame) (c : String)
    (h : (df.rows.isEmpty || df.cols.isEmpty) = true) : colMean df c = none := by
  rcases (Bool.or_eq_true _ _).mp h with h1 | h1
  · exact colMean_of_rows_nil df c (by simpa using h1)
  · exact colMean_of_not_mem df c (by simp [List.isEmpty_iff.mp h1])

/-- `List.find?` returns the entry at the first index whose entry
satisfies the predicate. -/
theorem find?_first (p : String → Bool) :
    ∀ (l : List String) (i : ℕ) (x : String), l[i]? = some x → p x = true →
      (∀ j, j < i → ∀ y, l[j]? = some y → p y = false) → l.find? p = some x := by
  intro l
  induction l with
  | nil => intro i x hx _ _; simp at hx
  | cons a t ih =>
    intro i x hx hp hprev
    cases i with
    | zero =>
      simp at hx
      subst hx
      exact List.find?_cons_of_pos _ hp
    | succ n =>
      have ha : p a = false := hprev 0 (Nat.succ_pos n) a (by simp)
      rw [List.find?_cons_of_neg _ (by simp [ha])]
      exact ih n x (by simpa using hx) hp
        (fun j hj y hy => hprev (j + 1) (Nat.succ_lt_succ hj) y (by simpa using hy))

/-- A column with an unparseable cell fails `pd.to_datetime` as a whole. -/
theorem parseSeries_eq_none {l : List Cell} (h : ∃ cl ∈ l, parseTime cl = none) :
    parseSeries l = none := by
  induction l with
  | nil => simp at h
  | cons a t ih =>
    rcases h with ⟨cl, hmem, hcl⟩
    rcases List.mem_cons.mp hmem with rfl | hmt
    · simp [parseSeries, hcl]
    · cases hpa : parseTime a <;> simp [parseSeries, hpa, ih ⟨cl, hmt, hcl⟩]

/-! ### Claim theorems -/

/-- C1 counterexample: the power column `[1000 W, non-numeric string]`
has a numeric, non-missing value, so the claim asserts
`avg_power = mean 1000 / 1000 = 1` kW — but the string cell makes the
`mean()` raise and the code return the empty dict, leaving `avg_power`
absent. -/
theorem dirty_power_column_no_avg_power :
    (calculate_daily_averages (some dfPowerDirty)).avg_power ≠ some 1 := by
  have h : (calculate_daily_averages (some dfPowerDirty)).avg_power = none := by
    decide
  simp [h]

/-- C1 (amended): for every table whose `PowerP_Total_avg` column
carries at least one numeric, non-missing value, and none of whose
seven KPI source columns holds a non-numeric, non-missing cell (such a
cell makes the pandas mean raise and the whole dict come back empty),
the `avg_power` entry of `calculate_daily_averages` is the arithmetic
mean of the numeric values divided by 1000, the division applied once
after aggregation. -/
theorem avg_power_mean_div_1000 (df : DataFrame)
    (hclean : kpiColsClean df = true)
    (hmem : "PowerP_Total_avg" ∈ df.cols)
    (hnum : numericValues df "PowerP_Total_avg" ≠ []) :
    (calculate_daily_averages (some df)).avg_power =
      some ((numericValues df "PowerP_Total_avg").sum /
        ((numericValues df "PowerP_Total_avg").length : ℚ) / 1000) := by
  have hrows : df.rows ≠ [] := by
    intro hr
    exact hnum (by simp [numericValues, colValues, hr])
  have hcols : df.cols ≠ [] := by
    intro hc
    rw [hc] at hmem
    exact absurd hmem (List.not_mem_nil _)
  have hg : (df.rows.isEmpty || df.cols.isEmpty) = false := by
    simp [hrows, hcols]
  simp [calculate_daily_averages, hg, hclean, colMean, seriesMean, hnum]

/-- C1 witness: the single-row table with power 2000 W has
`avg_power = 2` kW, and the table with powers 1000 W and 3000 W also
has `avg_power = 2` kW. -/
theorem avg_power_mean_div_1000_witness :
    (calculate_daily_averages (some df1)).avg_power = some 2 ∧
      (calculate_daily_averages (some df2)).avg_power = some 2 := by
  constructor
  · have h1 : numericValues df1 "PowerP_Total_avg" = [2000] := rfl
    rw [avg_power_mean_div_1000 df1 (by decide) (by decide) (by decide), h1]
    norm_num
  · have h2 : numericValues df2 "PowerP_Total_avg" = [1000, 3000] := rfl
    rw [avg_power_mean_div_1000 df2 (by decide) (by decide) (by decide), h2]
    norm_num

/-- C2 counterexample: on the empty table the code returns the empty
dict, so `data_points` is absent, not `0` as the claim states. -/
theorem empty_table_data_points_not_zero :
    (calculate_daily_averages (some dfEmpty)).data_points ≠ some 0 := by
  decide

/-- C2 (amended): `calculate_daily_averages` is total, and on an empty
table it returns the empty dict: all seven average indicators are
undefined — and so is `data_points` (absent rather than `0`). -/
theorem empty_table_all_undefined (df : DataFrame) (h : df.rows = []) :
    calculate_daily_averages (some df) = emptyKPIs := by
  simp [calculate_daily_averages, h]

/-- C2 witness: the concrete empty table yields the empty dict. -/
theorem empty_table_all_undefined_witness :
    calculate_daily_averages (some dfEmpty) = emptyKPIs :=
  empty_table_all_undefined dfEmpty rfl

/-- C3 counterexample: on the empty table `data_points` is not the row
count `0`; the empty-dict early return leaves it undefined. -/
theorem data_points_not_row_count_on_empty :
    (calculate_daily_averages (some dfEmpty)).data_points ≠
      some dfEmpty.rows.length := by
  decide

/-- C3 (amended): for every table with at least one row and at least
one column, none of whose seven KPI source columns holds a non-numeric,
non-missing cell, `data_points` equals the row count, independent of
which measurement columns are present; on an empty frame, or when a
raising `mean()` sends the code into its `except` branch, the dict is
empty and `data_points` is undefined. -/
theorem data_points_eq_row_count (df : DataFrame)
    (hclean : kpiColsClean df = true)
    (h1 : df.rows ≠ []) (h2 : df.cols ≠ []) :
    (calculate_daily_averages (some df)).data_points = some df.rows.length := by
  have hg : (df.rows.isEmpty || df.cols.isEmpty) = false := by
    simp [h1, h2]
  simp [calculate_daily_averages, hg, hclean]

/-- C3 witness: the one-row table reports one data point. -/
theorem data_points_eq_row_count_witness :
    (calculate_daily_averages (some df1)).data_points = some df1.rows.length :=
  data_points_eq_row_count df1 (by decide) (by decide) (by decide)

/-- C4 counterexample: in a table lacking `PowerP_Total_avg` whose
power-factor column is `[1, non-numeric string]`, the claim asserts
`avg_pf` is still the mean of its own column (the value `colMean`
computes) — but the string cell makes the `mean()` raise and the code
return the empty dict, so `avg_pf` is absent. -/
theorem dirty_pf_column_aborts_dict :
    (calculate_daily_averages (some dfNoPowerDirty)).avg_pf ≠
      colMean dfNoPowerDirty "PfFwdRev_Total_avg" := by
  have h1 : (calculate_daily_averages (some dfNoPowerDirty)).avg_pf = none := by
    decide
  have h2 : numericValues dfNoPowerDirty "PfFwdRev_Total_avg" = [1] := rfl
  simp [h1, colMean, h2, seriesMean]

/-- C4 (amended): when the `PowerP_Total_avg` column is absent and no
KPI source column holds a non-numeric, non-missing cell, `avg_power` is
undefined (not zero, not an error), while every other indicator is
still the mean of its own source column; a non-numeric cell elsewhere
would instead empty the whole dict. -/
theorem missing_column_indicator_undefined (df : DataFrame)
    (hclean : kpiColsClean df = true)
    (h : "PowerP_Total_avg" ∉ df.cols) :
    (calculate_daily_averages (some df)).avg_power = none ∧
      (calculate_daily_averages (some df)).avg_pf =
        colMean df "PfFwdRev_Total_avg" ∧
      (calculate_daily_averages (some df)).avg_voltage =
        colMean df "Vrms_AN_avg" ∧
      (calculate_daily_averages (some df)).avg_current =
        colMean df "Irms_A_avg" ∧
      (calculate_daily_averages (some df)).avg_frequency =
        colMean df "Frequency_avg" ∧
      (calculate_daily_averages (some df)).avg_vthd =
        colMean df "Vthd_AN_avg" ∧
      (calculate_daily_averages (some df)).avg_ithd =
        colMean df "Ithd_A_avg" := by
  by_cases hg : (df.rows.isEmpty || df.cols.isEmpty) = true
  · simp [calculate_daily_averages, hg, emptyKPIs,
      colMean_of_empty df _ hg]
  · simp [calculate_daily_averages, hg, hclean, colMean_of_not_mem df _ h]

/-- C4 witness: the power-free one-row table has undefined `avg_power`
and its power-factor mean intact. -/
theorem missing_column_indicator_undefined_witness :
    (calculate_daily_averages (some dfNoPower)).avg_power = none ∧
      (calculate_daily_averages (some dfNoPower)).avg_pf =
        colMean dfNoPower "PfFwdRev_Total_avg" ∧
      (calculate_daily_averages (some dfNoPower)).avg_voltage =
        colMean dfNoPower "Vrms_AN_avg" ∧
      (calculate_daily_averages (some dfNoPower)).avg_current =
        colMean dfNoPower "Irms_A_avg" ∧
      (calculate_daily_averages (some dfNoPower)).avg_frequency =
        colMean dfNoPower "Frequency_avg" ∧
      (calculate_daily_averages (some dfNoPower)).avg_vthd =
        colMean dfNoPower "Vthd_AN_avg" ∧
      (calculate_daily_averages (some dfNoPower)).avg_ithd =
        colMean dfNoPower "Ithd_A_avg" :=
  missing_column_indicator_undefined dfNoPower (by decide) (by decide)

/-- C5 counterexample: the voltage column `[220 V, non-numeric string]`
refutes "non-numeric cells are excluded from both the sum and the
count": exclusion would give the mean 220 V (the value `colMean`
computes), but pandas `mean()` skips only missing cells, raises
`TypeError` on the string, and the code returns the empty dict, leaving
`avg_voltage` absent. -/
theorem dirty_voltage_column_aborts_dict :
    (calculate_daily_averages (some dfVDirty)).avg_voltage ≠
      colMean dfVDirty "Vrms_AN_avg" := by
  have h1 : (calculate_daily_averages (some dfVDirty)).avg_voltage = none := by
    decide
  have h2 : numericValues dfVDirty "Vrms_AN_avg" = [220] := rfl
  simp [h1, colMean, h2, seriesMean]

/-- C5 (amended): for a present source column, provided no KPI source
column holds a non-numeric, non-missing cell (such a cell is not
skipped: it makes the aggregation raise and empties the whole dict),
the indicator is the arithmetic mean of the numeric cells with the
missing cells excluded from both the sum and the count, and a column
of entirely missing cells yields an undefined value — stated for the
representative `avg_voltage` over its source column `Vrms_AN_avg`. -/
theorem present_column_mean_semantics (df : DataFrame)
    (hclean : kpiColsClean df = true)
    (hc : "Vrms_AN_avg" ∈ df.cols) :
    ((∀ cell ∈ colValues df "Vrms_AN_avg", cell = Cell.missing) →
      (calculate_daily_averages (some df)).avg_voltage = none) ∧
      (numericValues df "Vrms_AN_avg" ≠ [] →
        (calculate_daily_averages (some df)).avg_voltage =
          some ((numericValues df "Vrms_AN_avg").sum /
            ((numericValues df "Vrms_AN_avg").length : ℚ))) := by
  constructor
  · intro hall
    have hnil : numericValues df "Vrms_AN_avg" = [] := by
      rw [numericValues, List.filterMap_eq_nil_iff]
      intro cell hcell
      rw [hall cell hcell]
      rfl
    by_cases hg : (df.rows.isEmpty || df.cols.isEmpty) = true
    · simp [calculate_daily_averages, hg, emptyKPIs]
    · simp [calculate_daily_averages, hg, hclean, colMean, hnil, seriesMean]
  · intro hne
    have hrows : df.rows ≠ [] := by
      intro hr
      exact hne (by simp [numericValues, colValues, hr])
    have hcols : df.cols ≠ [] := by
      intro hcn
      rw [hcn] at hc
      exact absurd hc (List.not_mem_nil _)
    have hg : (df.rows.isEmpty || df.cols.isEmpty) = false := by
      simp [hrows, hcols]
    simp [calculate_daily_averages, hg, hclean, colMean, seriesMean, hne]

/-- C5 witness: the voltage table with cells 220 V, 240 V and one
missing cell averages to 230 V — the missing cell is excluded from both
the sum and the count. -/
theorem present_column_mean_semantics_witness :
    "Vrms_AN_avg" ∈ dfV.cols ∧
      (calculate_daily_averages (some dfV)).avg_voltage = some 230 := by
  refine ⟨by decide, ?_⟩
  have hv : numericValues dfV "Vrms_AN_avg" = [220, 240] := rfl
  rw [(present_column_mean_semantics dfV (by decide) (by decide)).2 (by decide), hv]
  norm_num

/-- C6: when the station's backing file does not exist, the load fails
with the distinct `SourceNotFound` condition and returns no table. -/
theorem absent_file_source_not_found (fs : String → FileState) (s : Station)
    (h : fs (stationFile s) = FileState.absent) :
    load_station_data fs s = Except.error LoadError.sourceNotFound := by
  simp [load_station_data, h]

/-- C6 witness: the empty file system makes the mvule load fail with
`SourceNotFound`. -/
theorem absent_file_source_not_found_witness :
    load_station_data fsAbsent Station.mvule =
      Except.error LoadError.sourceNotFound :=
  absent_file_source_not_found fsAbsent Station.mvule rfl

/-- C7: when none of the five candidate timestamp column names is among
the parsed table's columns, the load fails with the distinct
no-timestamp-column schema error. -/
theorem no_time_column_schema_error (fs : String → FileState) (s : Station)
    (df : DataFrame) (h : fs (stationFile s) = FileState.readable df)
    (hno : ∀ c ∈ time_columns, c ∉ df.cols) :
    load_station_data fs s = Except.error LoadError.schemaErrorNoTimeCol := by
  have hft : findTimeCol df.cols = none :=
    List.find?_eq_none.mpr (fun x hx => by simp [hno x hx])
  simp [load_station_data, h, hft]

/-- C7 witness: a table whose only column is `Foo` fails the clinic
load with the no-timestamp-column schema error. -/
theorem no_time_column_schema_error_witness :
    load_station_data fsNoTime Station.clinic =
      Except.error LoadError.schemaErrorNoTimeCol :=
  no_time_column_schema_error fsNoTime Station.clinic dfNoTime rfl (by decide)

/-- C8: when some value of the selected timestamp column fails to parse,
the whole load fails with the bad-timestamp schema error and no table —
hence no partially parsed rows — is returned. -/
theorem bad_timestamp_fails_load (fs : String → FileState) (s : Station)
    (df : DataFrame) (tc : String)
    (h : fs (stationFile s) = FileState.readable df)
    (htc : findTimeCol df.cols = some tc)
    (hbad : ∃ cl ∈ colValues df tc, parseTime cl = none) :
    load_station_data fs s =
      Except.error LoadError.schemaErrorBadTimestamp := by
  simp [load_station_data, h, htc, parseSeries_eq_none hbad]

/-- C8 witness: a table whose `Time` column holds an unparseable cell
fails the mvule load with the bad-timestamp schema error. -/
theorem bad_timestamp_fails_load_witness :
    load_station_data fsBad Station.mvule =
      Except.error LoadError.schemaErrorBadTimestamp :=
  bad_timestamp_fails_load fsBad Station.mvule dfBad "Time" rfl (by decide)
    ⟨Cell.bad, by decide, rfl⟩

/-- C9: the loader selects the first name of the fixed ordered candidate
list present among the table's columns; when the load succeeds the
selected column is the one removed into the index, every row kept. -/
theorem timestamp_priority_selection (fs : String → FileState) (s : Station)
    (df : DataFrame) (i : ℕ) (tc : String)
    (hfs : fs (stationFile s) = FileState.readable df)
    (hi : time_columns[i]? = some tc)
    (hmem : tc ∈ df.cols)
    (hfirst : ∀ j, j < i → ∀ c, time_columns[j]? = some c → c ∉ df.cols) :
    findTimeCol df.cols = some tc ∧
      (load_station_data fs s =
          Except.error LoadError.schemaErrorBadTimestamp ∨
        load_station_data fs s =
          Except.ok { cols := df.cols.erase tc, rows := df.rows }) := by
  have hft : findTimeCol df.cols = some tc := by
    unfold findTimeCol
    exact find?_first _ time_columns i tc hi (by simpa using hmem)
      (fun j hj y hy => by simp [hfirst j hj y hy])
  refine ⟨hft, ?_⟩
  cases hps : parseSeries (colValues df tc) with
  | none => exact Or.inl (by simp [load_station_data, hfs, hft, hps])
  | some ts => exact Or.inr (by simp [load_station_data, hfs, hft, hps])

/-- C9 witness: with both `Time` and `Stop(E. Africa Standard Time)`
present (and `Time` listed first in the table), the loader still selects
`Stop(E. Africa Standard Time)`, the earlier candidate. -/
theorem timestamp_priority_selection_witness :
    findTimeCol dfBoth.cols = some "Stop(E. Africa Standard Time)" ∧
      (load_station_data fsBoth Station.mvule =
          Except.error LoadError.schemaErrorBadTimestamp ∨
        load_station_data fsBoth Station.mvule =
          Except.ok { cols := dfBoth.cols.erase "Stop(E. Africa Standard Time)",
                      rows := dfBoth.rows }) :=
  timestamp_priority_selection fsBoth Station.mvule dfBoth 0
    "Stop(E. Africa Standard Time)" rfl (by simp [time_columns]) (by decide)
    (fun j hj => absurd hj (Nat.not_lt_zero j))

/-- C10: for every file-system state and station, `load_station_data`
either reports an error (each such branch returning `None` to the
caller) or returns the fully loaded table — all rows of the parsed file,
columns re-keyed by the selected timestamp column — never a partially
populated one. -/
theorem load_never_partial (fs : String → FileState) (s : Station) :
    (load_station_result fs s = none ∧
        ∃ e, load_station_data fs s = Except.error e) ∨
      (∃ df tc, fs (stationFile s) = FileState.readable df ∧
        findTimeCol df.cols = some tc ∧
        load_station_result fs s =
          some { cols := df.cols.erase tc, rows := df.rows }) := by
  cases hfs : fs (stationFile s) with
  | absent =>
    exact Or.inl ⟨by simp [load_station_result, load_station_data, hfs,
      Except.toOption], LoadError.sourceNotFound,
      by simp [load_station_data, hfs]⟩
  | unreadable =>
    exact Or.inl ⟨by simp [load_station_result, load_station_data, hfs,
      Except.toOption], LoadError.readFailure,
      by simp [load_station_data, hfs]⟩
  | readable df =>
    cases hft : findTimeCol df.cols with
    | none =>
      exact Or.inl ⟨by simp [load_station_result, load_station_data, hfs,
        hft, Except.toOption], LoadError.schemaErrorNoTimeCol,
        by simp [load_station_data, hfs, hft]⟩
    | some tc =>
      cases hps : parseSeries (colValues df tc) with
      | none =>
        exact Or.inl ⟨by simp [load_station_result, load_station_data, hfs,
          hft, hps, Except.toOption], LoadError.schemaErrorBadTimestamp,
          by simp [load_station_data, hfs, hft, hps]⟩
      | some ts =>
        exact Or.inr ⟨df, tc, rfl, hft,
          by simp [load_station_result, load_station_data, hfs, hft, hps,
            Except.toOption]⟩
